import Mathlib

/-!
Shallow embedding of the autoscaling decision logic of the repository, for
verification of its specification.

Two Lambda handlers carry the decision logic:

* `AIDetect` embeds `ai-incident-detection/aws-lambda/autoscale_handler.py`
  (functions `lambda_handler`, `get_asg_info`, `scale_up`, `scale_down`,
  `log_scaling_event`).
* `N8n` embeds `n8n-workflow-files/lambda/auto_scale_handler.py`
  (functions `lambda_handler`, `parse_event`, `get_asg_info`,
  `is_in_cooldown`, `get_cooldown_remaining`, `handle_scale_up`,
  `handle_scale_down`, `send_scaling_metric`, `create_response`).

Modelling conventions:

* Python ints and timestamps are `Int` (timestamps in whole seconds, the
  granularity at which the code and the spec state the cooldown laws).
* Calls to the cloud provider are injected as values: the result of
  `describe_auto_scaling_groups` is an `Except String AsgInfo` (raising vs
  returning), the result of `describe_scaling_activities` is an
  `Except String (Option Int)` (raising vs an empty activity list vs the
  `StartTime` of the most recent activity), the outcome of
  `put_metric_data` is an `Except String Unit`, and each
  `set_desired_capacity` invocation is recorded in the output as a
  `CapacityCall` rather than performed.
* JSON response bodies are modelled as structured records: one constructor
  per distinct dictionary shape the code builds, keeping the fields the
  decision logic computes (capacities, deltas, remaining cooldown, error
  message). Purely presentational fields (timestamps, headers,
  human-readable sentences, tag lists) are abstracted away.
-/

set_option linter.unusedVariables false

/-- A recorded `autoscaling.set_desired_capacity` invocation. -/
structure CapacityCall where
  desiredCapacity : Int
  honorCooldown : Bool
  deriving Repr, DecidableEq

namespace AIDetect

/-- Environment-derived configuration of
`ai-incident-detection/aws-lambda/autoscale_handler.py`
(MIN_CAPACITY, MAX_CAPACITY, SCALE_UP_INCREMENT, SCALE_DOWN_INCREMENT). -/
structure Config where
  minCapacity : Int
  maxCapacity : Int
  scaleUpIncrement : Int
  scaleDownIncrement : Int
  deriving Repr, DecidableEq

/-- The fields of `get_asg_info`'s result that the decision logic reads. -/
structure AsgInfo where
  desired_capacity : Int
  min_size : Int
  max_size : Int
  instance_count : Int
  deriving Repr, DecidableEq

/-- The incoming event; `none` models an absent key, so `event.get(k, d)`
becomes `Option.getD`. -/
structure Event where
  action : Option String := none
  alert_type : Option String := none
  severity : Option String := none
  ai_confidence : Option Int := none
  deriving Repr, DecidableEq

/-- The result dictionaries built by `scale_up`, `scale_down` and the
`analyze` branch of `lambda_handler`, one constructor per shape. -/
inductive ScaleResult where
  | noChangeAtMax (current_capacity max_capacity : Int)
  | noChangeAtMin (current_capacity min_capacity : Int)
  | analyzeOnly (current_capacity : Int)
  | scaledUp (previous_capacity new_capacity increment : Int)
  | scaledDown (previous_capacity new_capacity decrement : Int)
  deriving Repr, DecidableEq

/-- The `action` field the result dictionary carries. -/
def ScaleResult.action_label : ScaleResult → String
  | .noChangeAtMax _ _ => "no_change"
  | .noChangeAtMin _ _ => "no_change"
  | .analyzeOnly _ => "no_change"
  | .scaledUp _ _ _ => "scaled_up"
  | .scaledDown _ _ _ => "scaled_down"

/-- The capacity the result reports: `new_capacity` after a scaling action,
`current_capacity` when nothing changed. -/
def ScaleResult.capacity : ScaleResult → Int
  | .noChangeAtMax c _ => c
  | .noChangeAtMin c _ => c
  | .analyzeOnly c => c
  | .scaledUp _ n _ => n
  | .scaledDown _ n _ => n

/-- The handler's HTTP-shaped response. -/
inductive HandlerBody where
  | ok (result : ScaleResult)
  | err (message : String)
  deriving Repr, DecidableEq

structure Response where
  statusCode : Int
  body : HandlerBody
  deriving Repr, DecidableEq

/-- Embeds `scale_up(asg_info, alert_type, severity, ai_confidence)`. The
increment computation (lines 117-120) is factored out so the amplification
law can be stated about it. -/
def effective_increment (cfg : Config) (severity : String) (ai_confidence : Int) : Int :=
  if severity = "critical" ∨ ai_confidence > 90 then
    cfg.scaleUpIncrement * 2
  else
    cfg.scaleUpIncrement

/-- Embeds `scale_up`: clamp `current + increment` at `MAX_CAPACITY`; if the
capacity would not change, report the ceiling and make no provider call,
otherwise record `set_desired_capacity(new, HonorCooldown=False)`. -/
def scale_up (cfg : Config) (asg_info : AsgInfo) (alert_type severity : String)
    (ai_confidence : Int) : ScaleResult × Option CapacityCall :=
  let current_capacity := asg_info.desired_capacity
  let increment := effective_increment cfg severity ai_confidence
  let new_capacity := min (current_capacity + increment) cfg.maxCapacity
  if new_capacity = current_capacity then
    (ScaleResult.noChangeAtMax current_capacity cfg.maxCapacity, none)
  else
    (ScaleResult.scaledUp current_capacity new_capacity increment,
      some ⟨new_capacity, false⟩)

/-- Embeds `scale_down`: clamp `current - SCALE_DOWN_INCREMENT` at
`MIN_CAPACITY`; if the capacity would not change, report the floor,
otherwise record `set_desired_capacity(new, HonorCooldown=True)`. -/
def scale_down (cfg : Config) (asg_info : AsgInfo) : ScaleResult × Option CapacityCall :=
  let current_capacity := asg_info.desired_capacity
  let new_capacity := max (current_capacity - cfg.scaleDownIncrement) cfg.minCapacity
  if new_capacity = current_capacity then
    (ScaleResult.noChangeAtMin current_capacity cfg.minCapacity, none)
  else
    (ScaleResult.scaledDown current_capacity new_capacity cfg.scaleDownIncrement,
      some ⟨new_capacity, true⟩)

/-- Embeds `log_scaling_event`: `put_metric_data` is attempted inside a
`try`/`except` that swallows any failure, so the function returns unit for
every sink outcome. -/
def log_scaling_event (metricSink : Except String Unit) : Unit :=
  match metricSink with
  | .ok _ => ()
  | .error _ => ()

/-- Embeds `lambda_handler`: read the event fields with their defaults,
fetch the ASG state (a raising lookup lands in the `except` clause, a
500 response), dispatch on `action`, log the event best-effort, and wrap
the result in a 200 response. -/
def lambda_handler (cfg : Config) (event : Event) (asgLookup : Except String AsgInfo)
    (metricSink : Except String Unit) : Response × Option CapacityCall :=
  match asgLookup with
  | .error e => (⟨500, .err e⟩, none)
  | .ok asg_info =>
    let action := event.action.getD "analyze"
    let alert_type := event.alert_type.getD "unknown"
    let severity := event.severity.getD "warning"
    let ai_confidence := event.ai_confidence.getD 0
    let current_capacity := asg_info.desired_capacity
    let rc :=
      if action = "scale_up" then
        scale_up cfg asg_info alert_type severity ai_confidence
      else if action = "scale_down" then
        scale_down cfg asg_info
      else
        (ScaleResult.analyzeOnly current_capacity, none)
    let _ := log_scaling_event metricSink
    (⟨200, .ok rc.1⟩, rc.2)

end AIDetect

namespace N8n

/-- Environment-derived configuration of
`n8n-workflow-files/lambda/auto_scale_handler.py`
(MIN_INSTANCES, MAX_INSTANCES, SCALE_UP_AMOUNT, COOLDOWN_PERIOD). -/
structure Config where
  minInstances : Int
  maxInstances : Int
  scaleUpAmount : Int
  cooldownPeriod : Int
  deriving Repr, DecidableEq

/-- The fields of `get_asg_info`'s result that the decision logic reads. -/
structure AsgInfo where
  desired_capacity : Int
  min_size : Int
  max_size : Int
  current_instances : Int
  deriving Repr, DecidableEq

/-- The parsed request body; `none` models an absent key. The source's
`instance` key is rendered `instance_name` (`instance` is reserved in
Lean); `ai_confidence` is a string in this handler (default `"unknown"`),
never compared numerically. `metric_value` is read and echoed back but
never branched on, so it is abstracted away. -/
structure Event where
  alert_type : Option String := none
  instance_name : Option String := none
  ai_confidence : Option String := none
  action : Option String := none
  deriving Repr, DecidableEq

/-- The response dictionaries the handler builds, one constructor per
shape. -/
inductive Body where
  | cooldownSkip (alert_type : String) (cooldown_remaining : Int)
  | atMaxCapacity (current_capacity max_capacity : Int)
  | atMinCapacity (current_capacity min_capacity : Int)
  | scaledUp (previous_capacity new_capacity instances_added : Int)
      (alert_type ai_confidence : String)
  | scaledDown (previous_capacity new_capacity instances_removed : Int)
  | unknownAction (action : String)
  | internalError (message : String)
  deriving Repr, DecidableEq

/-- The capacity a scaling-branch response reports (`new_capacity` when a
scaling action ran, `current_capacity` at a bound); responses outside the
scaling branches report 0. -/
def Body.capacity : Body → Int
  | .atMaxCapacity c _ => c
  | .atMinCapacity c _ => c
  | .scaledUp _ n _ _ _ => n
  | .scaledDown _ n _ => n
  | .cooldownSkip _ _ => 0
  | .unknownAction _ => 0
  | .internalError _ => 0

structure Response where
  statusCode : Int
  body : Body
  deriving Repr, DecidableEq

/-- Embeds `is_in_cooldown`: a raising `describe_scaling_activities` is
caught and reported as not-in-cooldown; an empty activity list is
not-in-cooldown; otherwise in cooldown exactly while
`now < StartTime + COOLDOWN_PERIOD`. -/
def is_in_cooldown (cfg : Config) (activities : Except String (Option Int))
    (now : Int) : Bool :=
  match activities with
  | .error _ => false
  | .ok none => false
  | .ok (some activity_time) => decide (now < activity_time + cfg.cooldownPeriod)

/-- Embeds `get_cooldown_remaining`: a raising lookup or an empty activity
list yields 0; otherwise `max(0, StartTime + COOLDOWN_PERIOD - now)`. -/
def get_cooldown_remaining (cfg : Config) (activities : Except String (Option Int))
    (now : Int) : Int :=
  match activities with
  | .error _ => 0
  | .ok none => 0
  | .ok (some activity_time) => max 0 (activity_time + cfg.cooldownPeriod - now)

/-- Embeds `send_scaling_metric`: `put_metric_data` is attempted inside a
`try`/`except` that swallows any failure. -/
def send_scaling_metric (metricSink : Except String Unit) : Unit :=
  match metricSink with
  | .ok _ => ()
  | .error _ => ()

/-- Embeds `handle_scale_up`: clamp `current + SCALE_UP_AMOUNT` at
`MAX_INSTANCES`; at the ceiling, emit a rejection metric and report the
ceiling; otherwise record `set_desired_capacity(new, HonorCooldown=False)`
and emit a metric. -/
def handle_scale_up (cfg : Config) (current_capacity : Int)
    (alert_type ai_confidence : String) (metricSink : Except String Unit) :
    Response × Option CapacityCall :=
  let new_capacity := min (current_capacity + cfg.scaleUpAmount) cfg.maxInstances
  if new_capacity ≤ current_capacity then
    let _ := send_scaling_metric metricSink
    (⟨200, .atMaxCapacity current_capacity cfg.maxInstances⟩, none)
  else
    let _ := send_scaling_metric metricSink
    (⟨200, .scaledUp current_capacity new_capacity (new_capacity - current_capacity)
        alert_type ai_confidence⟩,
      some ⟨new_capacity, false⟩)

/-- Embeds `handle_scale_down`: clamp `current - 1` (the decrement is the
literal 1 in this handler) at `MIN_INSTANCES`; at the floor, report the
floor; otherwise record `set_desired_capacity(new, HonorCooldown=True)`
and emit a metric. -/
def handle_scale_down (cfg : Config) (current_capacity : Int) (alert_type : String)
    (metricSink : Except String Unit) : Response × Option CapacityCall :=
  let new_capacity := max (current_capacity - 1) cfg.minInstances
  if current_capacity ≤ new_capacity then
    (⟨200, .atMinCapacity current_capacity cfg.minInstances⟩, none)
  else
    let _ := send_scaling_metric metricSink
    (⟨200, .scaledDown current_capacity new_capacity (current_capacity - new_capacity)⟩,
      some ⟨new_capacity, true⟩)

/-- Embeds `lambda_handler`: everything runs inside a `try`/`except` that
converts any exception into a 500 response. A raising `parse_event`
(malformed JSON body) is injected as `parsedBody = .error e`; next the
cooldown gate runs, before any dispatch on `action`; then the ASG state is
fetched (a raising lookup lands in the `except` clause); finally the
handler dispatches on `action`, whose absent-key default is
`"scale_up"`, and an unrecognized action yields a 400 error response. -/
def lambda_handler (cfg : Config) (parsedBody : Except String Event)
    (activities : Except String (Option Int)) (now : Int)
    (asgLookup : Except String AsgInfo) (metricSink : Except String Unit) :
    Response × Option CapacityCall :=
  match parsedBody with
  | .error e => (⟨500, .internalError e⟩, none)
  | .ok body =>
    let alert_type := body.alert_type.getD "unknown"
    let ai_confidence := body.ai_confidence.getD "unknown"
    let action := body.action.getD "scale_up"
    if is_in_cooldown cfg activities now then
      (⟨200, .cooldownSkip alert_type (get_cooldown_remaining cfg activities now)⟩, none)
    else
      match asgLookup with
      | .error e => (⟨500, .internalError e⟩, none)
      | .ok asg_info =>
        let current_capacity := asg_info.desired_capacity
        if action = "scale_up" then
          handle_scale_up cfg current_capacity alert_type ai_confidence metricSink
        else if action = "scale_down" then
          handle_scale_down cfg current_capacity alert_type metricSink
        else
          (⟨400, .unknownAction action⟩, none)

end N8n

/-! ## Helper lemmas -/

theorem N8n.handle_scale_up_statusCode (cfg : N8n.Config) (cur : Int)
    (alert_type ai_confidence : String) (sink : Except String Unit) :
    (N8n.handle_scale_up cfg cur alert_type ai_confidence sink).1.statusCode = 200 := by
  simp only [N8n.handle_scale_up]
  split <;> rfl

theorem N8n.handle_scale_down_statusCode (cfg : N8n.Config) (cur : Int)
    (alert_type : String) (sink : Except String Unit) :
    (N8n.handle_scale_down cfg cur alert_type sink).1.statusCode = 200 := by
  simp only [N8n.handle_scale_down]
  split <;> rfl

/-! ## Claims -/

/-- C3: with `cooldown = 300` and last action at `T`, a scale-down request at
`now = T + 299` is suppressed by the cooldown gate with 1 second remaining;
at `now = T + 300` the gate is open; in general the gate holds exactly while
`now < T + cooldown`, and the remaining time is
`max 0 (T + cooldown - now)`. -/
theorem c3_cooldown_gate (cfg : N8n.Config) (body : N8n.Event) (T now : Int)
    (asgLookup : Except String N8n.AsgInfo) (sink : Except String Unit)
    (hc : cfg.cooldownPeriod = 300) (ha : body.action = some "scale_down") :
    (N8n.lambda_handler cfg (.ok body) (.ok (some T)) (T + 299) asgLookup sink).1
        = ⟨200, .cooldownSkip (body.alert_type.getD "unknown") 1⟩
    ∧ N8n.is_in_cooldown cfg (.ok (some T)) (T + 300) = false
    ∧ (N8n.is_in_cooldown cfg (.ok (some T)) now = true ↔ now < T + cfg.cooldownPeriod)
    ∧ N8n.get_cooldown_remaining cfg (.ok (some T)) now
        = max 0 (T + cfg.cooldownPeriod - now) := by
  refine ⟨?_, ?_, ?_, rfl⟩
  · have h1 : N8n.is_in_cooldown cfg (.ok (some T)) (T + 299) = true := by
      simp [N8n.is_in_cooldown, hc]
    have h2 : N8n.get_cooldown_remaining cfg (.ok (some T)) (T + 299) = 1 := by
      simp only [N8n.get_cooldown_remaining, hc]
      omega
    simp [N8n.lambda_handler, h1, h2]
  · simp [N8n.is_in_cooldown, hc]
  · simp [N8n.is_in_cooldown]

/-- C3 witness: the theorem at `T = 0`, `now = 5`, default configuration. -/
theorem c3_cooldown_gate_witness :
    (N8n.lambda_handler ⟨2, 10, 2, 300⟩ (.ok { action := some "scale_down" })
        (.ok (some 0)) (0 + 299) (.ok ⟨4, 2, 10, 4⟩) (.ok ())).1
      = ⟨200, .cooldownSkip "unknown" 1⟩
    ∧ N8n.is_in_cooldown ⟨2, 10, 2, 300⟩ (.ok (some 0)) (0 + 300) = false
    ∧ (N8n.is_in_cooldown ⟨2, 10, 2, 300⟩ (.ok (some 0)) 5 = true ↔ (5 : Int) < 0 + 300)
    ∧ N8n.get_cooldown_remaining ⟨2, 10, 2, 300⟩ (.ok (some 0)) 5 = max 0 (0 + 300 - 5) :=
  c3_cooldown_gate ⟨2, 10, 2, 300⟩ { action := some "scale_down" } 0 5
    (.ok ⟨4, 2, 10, 4⟩) (.ok ()) rfl rfl

/-- C7: with no prior scaling action on record (`Activities` empty) the
cooldown tracker reports not-suppressed with 0 seconds remaining, and when
the history lookup raises, both tracker functions still report
not-suppressed / 0 instead of propagating the error. -/
theorem c7_unknown_history_not_suppressed (cfg : N8n.Config) (now : Int) (e : String) :
    N8n.is_in_cooldown cfg (.ok none) now = false
    ∧ N8n.get_cooldown_remaining cfg (.ok none) now = 0
    ∧ N8n.is_in_cooldown cfg (.error e) now = false
    ∧ N8n.get_cooldown_remaining cfg (.error e) now = 0 :=
  ⟨rfl, rfl, rfl, rfl⟩

/-- C8: the outcome of the metrics sink never changes a handler's output:
for any two sink outcomes (success, failure with any message) both
handlers return identical responses and identical capacity calls. -/
theorem c8_metric_failure_swallowed (cfg : AIDetect.Config) (event : AIDetect.Event)
    (asgLookup : Except String AIDetect.AsgInfo)
    (ncfg : N8n.Config) (parsedBody : Except String N8n.Event)
    (activities : Except String (Option Int)) (now : Int)
    (nasgLookup : Except String N8n.AsgInfo) (s1 s2 : Except String Unit) :
    AIDetect.lambda_handler cfg event asgLookup s1
        = AIDetect.lambda_handler cfg event asgLookup s2
    ∧ N8n.lambda_handler ncfg parsedBody activities now nasgLookup s1
        = N8n.lambda_handler ncfg parsedBody activities now nasgLookup s2 := by
  constructor
  · cases asgLookup <;> rfl
  · cases parsedBody <;> cases nasgLookup <;> rfl

/-- C9: whenever a scale-up reaches the capacity-setting call, the recorded
`set_desired_capacity` invocation carries `HonorCooldown = false`, for every
severity and confidence; whenever a scale-down reaches it, the invocation
carries `HonorCooldown = true` — in both handlers. -/
theorem c9_honor_cooldown_flags (cfg : AIDetect.Config) (asg : AIDetect.AsgInfo)
    (alert_type severity : String) (ai_confidence : Int)
    (ncfg : N8n.Config) (cur : Int) (nalert nconf : String) (sink : Except String Unit)
    (ca cb cc cd : CapacityCall)
    (h1 : (AIDetect.scale_up cfg asg alert_type severity ai_confidence).2 = some ca)
    (h2 : (AIDetect.scale_down cfg asg).2 = some cb)
    (h3 : (N8n.handle_scale_up ncfg cur nalert nconf sink).2 = some cc)
    (h4 : (N8n.handle_scale_down ncfg cur nalert sink).2 = some cd) :
    ca.honorCooldown = false ∧ cb.honorCooldown = true
    ∧ cc.honorCooldown = false ∧ cd.honorCooldown = true := by
  refine ⟨?_, ?_, ?_, ?_⟩
  · simp only [AIDetect.scale_up] at h1
    split at h1
    · simp at h1
    · simp at h1
      subst h1
      rfl
  · simp only [AIDetect.scale_down] at h2
    split at h2
    · simp at h2
    · simp at h2
      subst h2
      rfl
  · simp only [N8n.handle_scale_up] at h3
    split at h3
    · simp at h3
    · simp at h3
      subst h3
      rfl
  · simp only [N8n.handle_scale_down] at h4
    split at h4
    · simp at h4
    · simp at h4
      subst h4
      rfl

/-- C9 witness: the theorem at capacity 4 in bounds [2, 10] with increments
2 (up) and 1 (down), warning severity with low confidence, where all four
paths produce a capacity call. -/
theorem c9_honor_cooldown_flags_witness :
    (CapacityCall.mk 6 false).honorCooldown = false
    ∧ (CapacityCall.mk 3 true).honorCooldown = true
    ∧ (CapacityCall.mk 6 false).honorCooldown = false
    ∧ (CapacityCall.mk 3 true).honorCooldown = true :=
  c9_honor_cooldown_flags ⟨2, 10, 2, 1⟩ ⟨4, 2, 10, 4⟩ "cpu" "warning" 50
    ⟨2, 10, 2, 300⟩ 4 "cpu" "50" (.ok ())
    ⟨6, false⟩ ⟨3, true⟩ ⟨6, false⟩ ⟨3, true⟩ rfl rfl rfl rfl

/-- C10: both top-level handlers always return a structured response — the
status code is one of 200/400/500 for every input — and whenever the inner
processing raises (a failing ASG lookup for the first handler, a failing
event parse for the second), the exception is converted into a 500 response
carrying the error message. -/
theorem c10_total_structured_response (cfg : AIDetect.Config) (event : AIDetect.Event)
    (asgLookup : Except String AIDetect.AsgInfo) (sink : Except String Unit) (e : String)
    (ncfg : N8n.Config) (parsedBody : Except String N8n.Event)
    (activities : Except String (Option Int)) (now : Int)
    (nasgLookup : Except String N8n.AsgInfo) :
    ((AIDetect.lambda_handler cfg event asgLookup sink).1.statusCode = 200
      ∨ (AIDetect.lambda_handler cfg event asgLookup sink).1.statusCode = 500)
    ∧ (AIDetect.lambda_handler cfg event (.error e) sink).1 = ⟨500, .err e⟩
    ∧ ((N8n.lambda_handler ncfg parsedBody activities now nasgLookup sink).1.statusCode = 200
      ∨ (N8n.lambda_handler ncfg parsedBody activities now nasgLookup sink).1.statusCode = 400
      ∨ (N8n.lambda_handler ncfg parsedBody activities now nasgLookup sink).1.statusCode = 500)
    ∧ (N8n.lambda_handler ncfg (.error e) activities now nasgLookup sink).1
        = ⟨500, .internalError e⟩ := by
  refine ⟨?_, rfl, ?_, rfl⟩
  · cases asgLookup <;> simp [AIDetect.lambda_handler]
  · cases parsedBody with
    | error e2 => simp [N8n.lambda_handler]
    | ok body =>
      by_cases hcd : N8n.is_in_cooldown ncfg activities now = true
      · simp [N8n.lambda_handler, hcd]
      · cases nasgLookup with
        | error e2 => simp [N8n.lambda_handler, hcd]
        | ok a =>
          by_cases hup : body.action.getD "scale_up" = "scale_up"
          · simp [N8n.lambda_handler, hcd, hup, N8n.handle_scale_up_statusCode]
          · by_cases hdn : body.action.getD "scale_up" = "scale_down"
            · simp [N8n.lambda_handler, hcd, hup, hdn, N8n.handle_scale_down_statusCode]
            · simp [N8n.lambda_handler, hcd, hup, hdn]

/-- C4: with `current` within the configured bounds and a positive base
increment, the planned scale-up capacity lies in `[current, max]` in both
handlers: the plan never shrinks the fleet and never exceeds the maximum. -/
theorem c4_scale_up_capacity_bounds (cfg : AIDetect.Config) (asg : AIDetect.AsgInfo)
    (alert_type severity : String) (ai_confidence : Int)
    (ncfg : N8n.Config) (cur : Int) (nalert nconf : String) (sink : Except String Unit)
    (h1 : cfg.minCapacity ≤ asg.desired_capacity)
    (h2 : asg.desired_capacity ≤ cfg.maxCapacity)
    (h3 : 0 < cfg.scaleUpIncrement)
    (g1 : ncfg.minInstances ≤ cur) (g2 : cur ≤ ncfg.maxInstances)
    (g3 : 0 < ncfg.scaleUpAmount) :
    (asg.desired_capacity
        ≤ ((AIDetect.scale_up cfg asg alert_type severity ai_confidence).1).capacity
      ∧ ((AIDetect.scale_up cfg asg alert_type severity ai_confidence).1).capacity
        ≤ cfg.maxCapacity)
    ∧ (cur ≤ ((N8n.handle_scale_up ncfg cur nalert nconf sink).1).body.capacity
      ∧ ((N8n.handle_scale_up ncfg cur nalert nconf sink).1).body.capacity
        ≤ ncfg.maxInstances) := by
  have hinc : 0 < AIDetect.effective_increment cfg severity ai_confidence := by
    unfold AIDetect.effective_increment
    split <;> omega
  constructor
  · simp only [AIDetect.scale_up]
    split <;> simp only [AIDetect.ScaleResult.capacity] <;> omega
  · simp only [N8n.handle_scale_up]
    split <;> simp only [N8n.Body.capacity] <;> omega

/-- C4 witness: the theorem at capacity 4 in bounds [2, 10], base increment
2 in both handlers. -/
theorem c4_scale_up_capacity_bounds_witness :
    ((4 : Int) ≤ ((AIDetect.scale_up ⟨2, 10, 2, 1⟩ ⟨4, 2, 10, 4⟩ "cpu" "warning" 50).1).capacity
      ∧ ((AIDetect.scale_up ⟨2, 10, 2, 1⟩ ⟨4, 2, 10, 4⟩ "cpu" "warning" 50).1).capacity ≤ 10)
    ∧ ((4 : Int) ≤ ((N8n.handle_scale_up ⟨2, 10, 2, 300⟩ 4 "cpu" "50" (.ok ())).1).body.capacity
      ∧ ((N8n.handle_scale_up ⟨2, 10, 2, 300⟩ 4 "cpu" "50" (.ok ())).1).body.capacity ≤ 10) :=
  c4_scale_up_capacity_bounds ⟨2, 10, 2, 1⟩ ⟨4, 2, 10, 4⟩ "cpu" "warning" 50
    ⟨2, 10, 2, 300⟩ 4 "cpu" "50" (.ok ())
    (by norm_num) (by norm_num) (by norm_num) (by norm_num) (by norm_num) (by norm_num)

/-- C5: with `current ≥ min` and a positive base decrement, the planned
scale-down capacity equals `max (current - base_decrement) min` in both
handlers (the n8n handler's decrement is the literal 1), lies in
`[min, current]`, and the applied decrease never exceeds the base
decrement — no severity/confidence amplification exists on this path. -/
theorem c5_scale_down_conservative (cfg : AIDetect.Config) (asg : AIDetect.AsgInfo)
    (ncfg : N8n.Config) (cur : Int) (nalert : String) (sink : Except String Unit)
    (h1 : cfg.minCapacity ≤ asg.desired_capacity)
    (h2 : 0 < cfg.scaleDownIncrement)
    (g1 : ncfg.minInstances ≤ cur) :
    ((AIDetect.scale_down cfg asg).1.capacity
        = max (asg.desired_capacity - cfg.scaleDownIncrement) cfg.minCapacity
      ∧ cfg.minCapacity ≤ (AIDetect.scale_down cfg asg).1.capacity
      ∧ (AIDetect.scale_down cfg asg).1.capacity ≤ asg.desired_capacity
      ∧ asg.desired_capacity - (AIDetect.scale_down cfg asg).1.capacity
        ≤ cfg.scaleDownIncrement)
    ∧ ((N8n.handle_scale_down ncfg cur nalert sink).1.body.capacity
        = max (cur - 1) ncfg.minInstances
      ∧ ncfg.minInstances ≤ (N8n.handle_scale_down ncfg cur nalert sink).1.body.capacity
      ∧ (N8n.handle_scale_down ncfg cur nalert sink).1.body.capacity ≤ cur
      ∧ cur - (N8n.handle_scale_down ncfg cur nalert sink).1.body.capacity ≤ 1) := by
  constructor
  · have hmax := max_choice (asg.desired_capacity - cfg.scaleDownIncrement) cfg.minCapacity
    have hge : cfg.minCapacity
        ≤ max (asg.desired_capacity - cfg.scaleDownIncrement) cfg.minCapacity :=
      le_max_right _ _
    have hle : asg.desired_capacity - cfg.scaleDownIncrement
        ≤ max (asg.desired_capacity - cfg.scaleDownIncrement) cfg.minCapacity :=
      le_max_left _ _
    simp only [AIDetect.scale_down]
    generalize hm : max (asg.desired_capacity - cfg.scaleDownIncrement) cfg.minCapacity = m
      at hmax hge hle ⊢
    clear hm
    split <;> rename_i hif <;>
      simp only [AIDetect.ScaleResult.capacity, true_and, and_true] <;> omega
  · have hmax := max_choice (cur - 1) ncfg.minInstances
    have hge : ncfg.minInstances ≤ max (cur - 1) ncfg.minInstances := le_max_right _ _
    have hle : cur - 1 ≤ max (cur - 1) ncfg.minInstances := le_max_left _ _
    simp only [N8n.handle_scale_down]
    generalize hm : max (cur - 1) ncfg.minInstances = m at hmax hge hle ⊢
    clear hm
    split <;> rename_i hif <;>
      simp only [N8n.Body.capacity, true_and, and_true] <;> omega

/-- C5 witness: the theorem at capacity 4 with floor 2, decrement 1. -/
theorem c5_scale_down_conservative_witness :
    ((AIDetect.scale_down ⟨2, 10, 2, 1⟩ ⟨4, 2, 10, 4⟩).1.capacity = max (4 - 1) 2
      ∧ (2 : Int) ≤ (AIDetect.scale_down ⟨2, 10, 2, 1⟩ ⟨4, 2, 10, 4⟩).1.capacity
      ∧ (AIDetect.scale_down ⟨2, 10, 2, 1⟩ ⟨4, 2, 10, 4⟩).1.capacity ≤ 4
      ∧ (4 : Int) - (AIDetect.scale_down ⟨2, 10, 2, 1⟩ ⟨4, 2, 10, 4⟩).1.capacity ≤ 1)
    ∧ ((N8n.handle_scale_down ⟨2, 10, 2, 300⟩ 4 "cpu" (.ok ())).1.body.capacity
        = max (4 - 1) 2
      ∧ (2 : Int) ≤ (N8n.handle_scale_down ⟨2, 10, 2, 300⟩ 4 "cpu" (.ok ())).1.body.capacity
      ∧ (N8n.handle_scale_down ⟨2, 10, 2, 300⟩ 4 "cpu" (.ok ())).1.body.capacity ≤ 4
      ∧ (4 : Int) - (N8n.handle_scale_down ⟨2, 10, 2, 300⟩ 4 "cpu" (.ok ())).1.body.capacity ≤ 1) :=
  c5_scale_down_conservative ⟨2, 10, 2, 1⟩ ⟨4, 2, 10, 4⟩ ⟨2, 10, 2, 300⟩ 4 "cpu" (.ok ())
    (by norm_num) (by norm_num) (by norm_num)

/-- C1 counterexample: in the n8n handler a scale-up request with AI
confidence 95 (> 90) arriving during the cooldown window (last action at
time 0, now = 100, cooldown 300) IS suppressed by the cooldown gate — the
handler returns the cooldown-skip response — refuting the claim that such
requests are never suppressed. -/
theorem c1_counterexample :
    (95 : Int) > 90
    ∧ (N8n.lambda_handler ⟨2, 10, 2, 300⟩
        (.ok { alert_type := some "cpu", ai_confidence := some "95",
               action := some "scale_up" })
        (.ok (some 0)) 100 (.ok ⟨4, 2, 10, 4⟩) (.ok ())).1
      = ⟨200, .cooldownSkip "cpu" 200⟩ :=
  ⟨by norm_num, rfl⟩

/-- C1 amended: the n8n handler's cooldown gate suppresses scale-up and
scale-down requests alike, regardless of severity or confidence: whenever
the gate is closed, a scale-up request returns the cooldown-skip response,
identical to the response of the same request with action scale-down. (The
only cooldown override in the code is the unconditional
`HonorCooldown=False` flag on the provider call for executed scale-ups,
see C9.) -/
theorem c1_amended (cfg : N8n.Config) (body : N8n.Event)
    (activities : Except String (Option Int)) (now : Int)
    (asgLookup : Except String N8n.AsgInfo) (sink : Except String Unit)
    (h : N8n.is_in_cooldown cfg activities now = true) :
    (N8n.lambda_handler cfg (.ok { body with action := some "scale_up" })
        activities now asgLookup sink).1.body
      = .cooldownSkip (body.alert_type.getD "unknown")
          (N8n.get_cooldown_remaining cfg activities now)
    ∧ N8n.lambda_handler cfg (.ok { body with action := some "scale_down" })
        activities now asgLookup sink
      = N8n.lambda_handler cfg (.ok { body with action := some "scale_up" })
        activities now asgLookup sink := by
  constructor <;> simp [N8n.lambda_handler, h]

/-- C1 amended witness: the amended theorem at the counterexample's inputs
(confidence 95, in cooldown with 200 seconds remaining). -/
theorem c1_amended_witness :
    (N8n.lambda_handler ⟨2, 10, 2, 300⟩
        (.ok { alert_type := some "cpu", ai_confidence := some "95",
               action := some "scale_up" })
        (.ok (some 0)) 100 (.ok ⟨4, 2, 10, 4⟩) (.ok ())).1.body
      = .cooldownSkip "cpu" 200
    ∧ N8n.lambda_handler ⟨2, 10, 2, 300⟩
        (.ok { alert_type := some "cpu", ai_confidence := some "95",
               action := some "scale_down" })
        (.ok (some 0)) 100 (.ok ⟨4, 2, 10, 4⟩) (.ok ())
      = N8n.lambda_handler ⟨2, 10, 2, 300⟩
        (.ok { alert_type := some "cpu", ai_confidence := some "95",
               action := some "scale_up" })
        (.ok (some 0)) 100 (.ok ⟨4, 2, 10, 4⟩) (.ok ()) :=
  c1_amended ⟨2, 10, 2, 300⟩ { alert_type := some "cpu", ai_confidence := some "95" }
    (.ok (some 0)) 100 (.ok ⟨4, 2, 10, 4⟩) (.ok ()) rfl

/-- C2 counterexample: a scale-up planning call of the n8n handler with AI
confidence 95 (> 90) adds exactly the base increment 2 (capacity 2 → 4),
not the amplified 2 × 2 = 4, refuting the claimed iff for that handler's
planning path. -/
theorem c2_counterexample :
    (95 : Int) > 90
    ∧ (N8n.lambda_handler ⟨2, 10, 2, 300⟩
        (.ok { alert_type := some "cpu", ai_confidence := some "95",
               action := some "scale_up" })
        (.ok none) 1000 (.ok ⟨2, 2, 10, 2⟩) (.ok ())).1
      = ⟨200, .scaledUp 2 4 2 "cpu" "95"⟩
    ∧ (2 : Int) ≠ 2 * 2 :=
  ⟨by norm_num, rfl, by norm_num⟩

/-- C2 amended: the amplification law holds for the ai-incident-detection
handler's planner — with a positive base increment, the effective increment
equals `2 × base` iff severity is critical or confidence exceeds 90, and
equals exactly `base` otherwise — while the n8n handler's scale-up never
amplifies: any capacity call it makes targets at most
`current + base_increment`. -/
theorem c2_amended (cfg : AIDetect.Config) (severity : String) (ai_confidence : Int)
    (ncfg : N8n.Config) (cur : Int) (nalert nconf : String) (sink : Except String Unit)
    (c : CapacityCall) (h : 0 < cfg.scaleUpIncrement)
    (hc : (N8n.handle_scale_up ncfg cur nalert nconf sink).2 = some c) :
    (AIDetect.effective_increment cfg severity ai_confidence = 2 * cfg.scaleUpIncrement
        ↔ (severity = "critical" ∨ ai_confidence > 90))
    ∧ (¬(severity = "critical" ∨ ai_confidence > 90) →
        AIDetect.effective_increment cfg severity ai_confidence = cfg.scaleUpIncrement)
    ∧ c.desiredCapacity ≤ cur + ncfg.scaleUpAmount := by
  refine ⟨?_, ?_, ?_⟩
  · unfold AIDetect.effective_increment
    by_cases hcond : (severity = "critical" ∨ ai_confidence > 90)
    · simp only [hcond, iff_true, if_true]
      ring
    · simp only [hcond, iff_false, if_false]
      omega
  · intro hcond
    simp only [AIDetect.effective_increment, if_neg hcond]
  · simp only [N8n.handle_scale_up] at hc
    split at hc
    · simp at hc
    · simp at hc
      subst hc
      exact min_le_left _ _

/-- C2 amended witness: the amended theorem at warning severity with
confidence 95, base increments 2. -/
theorem c2_amended_witness :
    (AIDetect.effective_increment ⟨2, 10, 2, 1⟩ "warning" 95 = 2 * 2
        ↔ ("warning" = "critical" ∨ (95 : Int) > 90))
    ∧ (¬("warning" = "critical" ∨ (95 : Int) > 90) →
        AIDetect.effective_increment ⟨2, 10, 2, 1⟩ "warning" 95 = 2)
    ∧ (CapacityCall.mk 4 false).desiredCapacity ≤ 2 + 2 :=
  c2_amended ⟨2, 10, 2, 1⟩ "warning" 95 ⟨2, 10, 2, 300⟩ 2 "cpu" "95" (.ok ())
    ⟨4, false⟩ (by norm_num) rfl

/-- C6 counterexample: the n8n handler, given an input whose action is
neither scale-up nor scale-down (action = "reboot", not in cooldown),
returns a 400 error response, not a no-change analyze outcome — refuting
the claim for that handler. -/
theorem c6_counterexample :
    (N8n.lambda_handler ⟨2, 10, 2, 300⟩ (.ok { action := some "reboot" }) (.ok none) 0
        (.ok ⟨4, 2, 10, 4⟩) (.ok ())).1
      = ⟨400, .unknownAction "reboot"⟩
    ∧ (400 : Int) ≠ 200 :=
  ⟨rfl, by norm_num⟩

/-- C6 amended: the ai-incident-detection handler maps any action other
than scale-up/scale-down to a 200 response with a pure analyze no-change
result and no capacity call; the n8n handler instead returns a 400
unknown-action error (when the cooldown gate is open), also with no
capacity call — and its absent-action default is scale-up, not analyze. -/
theorem c6_amended (cfg : AIDetect.Config) (event : AIDetect.Event)
    (asg : AIDetect.AsgInfo) (sink : Except String Unit)
    (ncfg : N8n.Config) (body : N8n.Event) (activities : Except String (Option Int))
    (now : Int) (nasg : N8n.AsgInfo)
    (h1 : event.action.getD "analyze" ≠ "scale_up")
    (h2 : event.action.getD "analyze" ≠ "scale_down")
    (g0 : N8n.is_in_cooldown ncfg activities now = false)
    (g1 : body.action.getD "scale_up" ≠ "scale_up")
    (g2 : body.action.getD "scale_up" ≠ "scale_down") :
    (AIDetect.lambda_handler cfg event (.ok asg) sink
        = (⟨200, .ok (.analyzeOnly asg.desired_capacity)⟩, none)
      ∧ (AIDetect.ScaleResult.analyzeOnly asg.desired_capacity).action_label = "no_change")
    ∧ N8n.lambda_handler ncfg (.ok body) activities now (.ok nasg) sink
        = (⟨400, .unknownAction (body.action.getD "scale_up")⟩, none) := by
  refine ⟨⟨?_, rfl⟩, ?_⟩
  · simp [AIDetect.lambda_handler, h1, h2]
  · simp [N8n.lambda_handler, g0, g1, g2]

/-- C6 amended witness: the amended theorem with action "analyze" for the
first handler and action "reboot" (cooldown open) for the second. -/
theorem c6_amended_witness :
    (AIDetect.lambda_handler ⟨2, 10, 2, 1⟩ { action := some "analyze" }
        (.ok ⟨4, 2, 10, 4⟩) (.ok ())
        = (⟨200, .ok (.analyzeOnly 4)⟩, none)
      ∧ (AIDetect.ScaleResult.analyzeOnly (4 : Int)).action_label = "no_change")
    ∧ N8n.lambda_handler ⟨2, 10, 2, 300⟩ (.ok { action := some "reboot" }) (.ok none) 0
        (.ok ⟨4, 2, 10, 4⟩) (.ok ())
        = (⟨400, .unknownAction "reboot"⟩, none) :=
  c6_amended ⟨2, 10, 2, 1⟩ { action := some "analyze" } ⟨4, 2, 10, 4⟩ (.ok ())
    ⟨2, 10, 2, 300⟩ { action := some "reboot" } (.ok none) 0 ⟨4, 2, 10, 4⟩
    (by decide) (by decide) rfl (by decide) (by decide)
